import Mathlib

/-!
Verification of the core of the cs3210 rustos kernel (bare-metal aarch64
educational OS).  Shallow embedding of the Rust sources:

* `src/kern/src/allocator/util.rs` and `src/kern/src/allocator/bin.rs`
  (size-class "bin" allocator);
* `src/kern/src/traps/syscall.rs`, `src/kern/src/traps/syndrome.rs`,
  `src/kern/src/traps.rs`, `src/kern/src/traps/frame.rs` (trap dispatch and
  system calls);
* `src/kern/src/process/scheduler.rs`, `src/kern/src/process/process.rs`
  (round-robin scheduler);
* `src/kern/src/vm/pagetable.rs` (user page tables).

Machine integers (`usize`/`u64`) are modelled as `Nat`; the kernel is built in
release mode, where arithmetic overflow wraps, so operations for which wrapping
is observable in a claim carry an explicit `% 2^64`; operations whose operands
are bounded far below `2^64` in every reachable state relevant to a claim are
kept as plain `Nat` arithmetic (noted where it happens).  Rust panics
(`panic!`-free in the sources, but `unimplemented!`, division by zero and
explicit `panic` calls occur) are modelled by `Except String`.
-/

/-! ### usize model -/

/-- Largest `usize`/`u64` value (the targets are 64-bit). -/
def USIZE_MAX : Nat := 2 ^ 64 - 1

/-! ### `kern/src/allocator/util.rs` -/

/-- `util.rs`: `is_power_of_two(align) = align & (align - 1) == 0`.
In release mode `0 - 1` wraps to `usize::MAX`, so `is_power_of_two(0)`
evaluates `0 & usize::MAX == 0`, i.e. `true`; `Nat` truncated subtraction
gives `0 &&& 0 = 0`, the same verdict, and agrees with the wrapped value for
every `align ≥ 1` as well. -/
def is_power_of_two (align : Nat) : Bool :=
  align &&& (align - 1) == 0

/-- `util.rs`: `align_up`.  `verify_power_of_two` panics when the (buggy)
`is_power_of_two` check fails; with `align = 0` that check passes and the
subsequent `addr % align` is a Rust division-by-zero panic. -/
def align_up (addr align : Nat) : Except String Nat :=
  if !is_power_of_two align then
    .error "not a power of 2"
  else if align = 0 then
    .error "remainder by zero"
  else if addr % align = 0 then
    .ok addr
  else
    .ok (addr + align - addr % align)

/-! ### `kern/src/allocator/bin.rs`

The allocator keeps one intrusive free list (`LinkedList`, a LIFO stack of
raw pointers) per size class.  `linked_list.rs` itself is not under `src/`;
following the spec ("State is one free list per class"), a free list is
modelled as a `List Nat` of block addresses: `push` prepends, iteration visits
from the most recently pushed block, and popping a visited node removes it in
place. -/

def NUM_BINS : Nat := 11
def BIN_SMALLEST_K : Nat := 3
def MIN_SIZE_CLASS : Nat := 1 <<< BIN_SMALLEST_K
def MAX_SIZE_CLASS : Nat := 1 <<< (NUM_BINS + BIN_SMALLEST_K - 1)

/-- The allocator state: `bins[k]` is the free list of the `2^(k+3)`-byte
class. -/
structure Allocator where
  bins : List (List Nat)
deriving Repr, DecidableEq

/-- `Allocator::new`, first loop: halve `size_class` until an aligned block of
that size fits strictly below `end`.  When `size_class` reaches `0`, the
source's `align_up(start, 0)` panics with a division by zero (the buggy
`is_power_of_two(0)` returns `true`); that case is hoisted to the front so the
recursion is well founded. -/
def Allocator.findStartGo (start e : Nat) : Nat → Nat → Except String (Nat × Nat)
  | 0, _ => .error "remainder by zero"
  | fuel + 1, sc =>
    if sc = 0 then .error "remainder by zero"
    else
      match align_up start sc with
      | .error s => .error s
      | .ok candidate =>
        if candidate + sc < e then .ok (candidate, sc)
        else Allocator.findStartGo start e fuel (sc / 2)

/-- Entry point of the first loop of `Allocator::new`.  `size_class` halves on
every iteration and the loop aborts once it reaches `0`, so at most
`log2 sc + 2 ≤ sc + 1` iterations happen: the fuel-0 arm of `findStartGo`
(kept equal to the `sc = 0` abort) is unreachable. -/
def Allocator.findStart (start e sc : Nat) : Except String (Nat × Nat) :=
  Allocator.findStartGo start e (sc + 1) sc

/-- `Allocator::new`, inner `while addr + size_class < end` loop of the fill
phase.  `fuel` bounds the iteration count; the caller passes `e`, which
suffices because every iteration requires `addr < e` and increases `addr` by
`size_class ≥ 1` (`findStart` never returns a zero class). -/
def Allocator.fillWhile : Nat → Nat → Nat → Nat → List Nat → Nat × List Nat
  | 0, addr, _, _, bin => (addr, bin)
  | fuel + 1, addr, sc, e, bin =>
    if addr + sc < e then Allocator.fillWhile fuel (addr + sc) sc e (addr :: bin)
    else (addr, bin)

/-- `Allocator::new`, outer `for bin_idx in (0..NUM_BINS).rev()` fill loop.
Note the source never halves `size_class` inside this loop: every bin index in
turn runs the same inner loop with the one `size_class` chosen by the first
loop. -/
def Allocator.fillBins : List Nat → Nat → Nat → Nat → List (List Nat) → Nat × List (List Nat)
  | [], addr, _, _, bins => (addr, bins)
  | i :: rest, addr, sc, e, bins =>
    let r := Allocator.fillWhile e addr sc e (bins.getD i [])
    Allocator.fillBins rest r.1 sc e (bins.set i r.2)

/-- `Allocator::new(start, end)`. -/
def Allocator.new (start e : Nat) : Except String Allocator :=
  match Allocator.findStart start e MAX_SIZE_CLASS with
  | .error s => .error s
  | .ok (addr, sc) =>
    let bins0 : List (List Nat) := List.replicate NUM_BINS []
    .ok ⟨(Allocator.fillBins ((List.range NUM_BINS).reverse) addr sc e bins0).2⟩

/-- `Allocator::map_to_bin`, `while size > bin_size` loop.  The fuel of
`NUM_BINS` steps is exact: the caller guarantees
`size ≤ MAX_SIZE_CLASS = MIN_SIZE_CLASS * 2^(NUM_BINS-1)`, so at most
`NUM_BINS - 1` doublings happen before `bin_size ≥ size`. -/
def mapToBinGo : Nat → Nat → Nat → Nat → Nat
  | 0, _, _, bin_idx => bin_idx
  | fuel + 1, size, bin_size, bin_idx =>
    if bin_size < size then mapToBinGo fuel size (bin_size * 2) (bin_idx + 1)
    else bin_idx

/-- `Allocator::map_to_bin(size)`: the smallest size class that fits `size`,
or `None` when `size` exceeds the largest class. -/
def Allocator.map_to_bin (size : Nat) : Option Nat :=
  if MAX_SIZE_CLASS < size then none
  else some (mapToBinGo NUM_BINS size MIN_SIZE_CLASS 0)

/-- `Allocator::map_to_bin_class_size(bin_idx) = 2^(3 + bin_idx)`. -/
def Allocator.map_to_bin_class_size (bin_idx : Nat) : Nat :=
  2 ^ (BIN_SMALLEST_K + bin_idx)

/-- `Allocator::split_memory_block(ptr, ptr_size, alloc_size)`: while the block
is strictly bigger than the requested class, push its upper half onto the
half-size class list and recurse on the lower half. -/
def Allocator.splitGo (alloc_size : Nat) : Nat → List (List Nat) → Nat → Nat → List (List Nat)
  | 0, bins, _, _ => bins
  | fuel + 1, bins, ptr, ptr_size =>
    if ptr_size ≤ alloc_size then bins
    else
      let half := ptr_size / 2
      match Allocator.map_to_bin half with
      | some idx =>
        Allocator.splitGo alloc_size fuel (bins.set idx ((ptr + half) :: bins.getD idx [])) ptr
          half
      | none => bins

/-- Entry point of `split_memory_block(ptr, ptr_size, alloc_size)`.  The block
size halves on every recursive call and the recursion stops at the latest when
it reaches `0 ≤ alloc_size`, so at most `log2 ptr_size + 2 ≤ ptr_size + 1`
steps happen: the fuel-0 arm of `splitGo` is unreachable. -/
def Allocator.split_memory_block (bins : List (List Nat)) (ptr ptr_size alloc_size : Nat) :
    List (List Nat) :=
  Allocator.splitGo alloc_size (ptr_size + 1) bins ptr ptr_size

/-- The free-list scan inside `Allocator::alloc`: find the first block on the
bin whose address satisfies the requested alignment and unlink it.  The Rust
alignment test is `bin.value() as usize % layout.align() == 0`; with
`align = 0` this is a division-by-zero panic at the first visited node (an
empty list is scanned without evaluating `%`). -/
def allocScanBin (align : Nat) : List Nat → Except String (Option (Nat × List Nat))
  | [] => .ok none
  | v :: rest =>
    if align = 0 then .error "remainder by zero"
    else if v % align = 0 then .ok (some (v, rest))
    else
      match allocScanBin align rest with
      | .error s => .error s
      | .ok none => .ok none
      | .ok (some (w, rest1)) => .ok (some (w, v :: rest1))

/-- The `loop` of `Allocator::alloc`: scan bin `bin_idx`, then advance to the
next larger class; `fuel` is `NUM_BINS - bin_idx`, so fuel `0` is exactly the
source's `bin_idx == NUM_BINS` exit returning null. -/
def allocLoop (align original : Nat) : Nat → Nat → Nat → List (List Nat) →
    Except String (Nat × List (List Nat))
  | 0, _, _, bins => .ok (0, bins)
  | fuel + 1, bin_idx, cls, bins =>
    match allocScanBin align (bins.getD bin_idx []) with
    | .error s => .error s
    | .ok (some (v, rest)) =>
      .ok (v, Allocator.split_memory_block (bins.set bin_idx rest) v cls original)
    | .ok none => allocLoop align original fuel (bin_idx + 1) (cls * 2) bins

/-- `Allocator::alloc(layout)` for `layout = (size, align)`.  A null return is
the address `0`. -/
def Allocator.alloc (a : Allocator) (size align : Nat) : Except String (Nat × Allocator) :=
  if size = 0 || !is_power_of_two align then .ok (0, a)
  else
    match Allocator.map_to_bin size with
    | none => .ok (0, a)
    | some bin_idx =>
      match allocLoop align (Allocator.map_to_bin_class_size bin_idx) (NUM_BINS - bin_idx)
          bin_idx (Allocator.map_to_bin_class_size bin_idx) a.bins with
      | .error s => .error s
      | .ok (p, bins) => .ok (p, ⟨bins⟩)

/-- `Allocator::dealloc(ptr, layout)`: push the block onto the free list of its
size class (no coalescing). -/
def Allocator.dealloc (a : Allocator) (ptr size : Nat) : Allocator :=
  match Allocator.map_to_bin size with
  | none => a
  | some idx => ⟨a.bins.set idx (ptr :: a.bins.getD idx [])⟩

/-- Disjointness of the byte regions `[p1, p1+s1)` and `[p2, p2+s2)`. -/
def regionsDisjoint (p1 s1 p2 s2 : Nat) : Prop :=
  p1 + s1 ≤ p2 ∨ p2 + s2 ≤ p1

/-! ### `kern/src/traps/frame.rs` -/

/-- The trap frame (`frame.rs`).  `simd_reg` (32 × u128) and `gen_reg`
(32 × u64) are lists of length 32. -/
structure TrapFrame where
  link_addr : Nat
  pstate : Nat
  sp : Nat
  tpidr : Nat
  ttbr0 : Nat
  ttbr1 : Nat
  simd_reg : List Nat
  gen_reg : List Nat
deriving Repr, DecidableEq

/-- `TrapFrame::default()`: all fields zeroed. -/
def TrapFrame.default : TrapFrame :=
  ⟨0, 0, 0, 0, 0, 0, List.replicate 32 0, List.replicate 32 0⟩

/-- Reading `tf.gen_reg[i]`. -/
def TrapFrame.reg (tf : TrapFrame) (i : Nat) : Nat :=
  tf.gen_reg.getD i 0

/-- `TrapFrame::increment_link_addr` (`self.link_addr += increment`, u64
wrapping add in release mode). -/
def TrapFrame.increment_link_addr (tf : TrapFrame) (increment : Nat) : TrapFrame :=
  { tf with link_addr := (tf.link_addr + increment) % 2 ^ 64 }

/-! ### `kern/src/process/process.rs` and `kern/src/process/scheduler.rs`

The scheduling `State` enum itself lives in `process/state.rs`, which is not
under `src/`.  Modelled from the spec: scheduling state is one of `Ready`,
`Running`, `Waiting(predicate)`, `Dead`, where `Waiting` carries a boxed
predicate polled with a mutable view of the process.  The predicate is
modelled by the boolean verdict it produces when polled (the only predicate
built by the sources, `sleep`'s deadline test, ignores its process argument
and mutates nothing).

`Process` also owns a stack and a user page table; the scheduler operations
modelled here never inspect either, so they are omitted from the record. -/

inductive PState where
  | ready
  | running
  | waiting (verdict : Bool)
  | dead
deriving Repr, DecidableEq

/-- A process as seen by the scheduler: its saved trap frame and state. -/
structure Process where
  context : TrapFrame
  state : PState
deriving Repr, DecidableEq

/-- `Process::is_ready` (`process.rs`): polls a `Waiting` predicate, promoting
the process to `Ready` when it fires (a non-firing predicate is swapped back
in place); then reports whether the state is `Ready`.  Returns the verdict and
the possibly updated process. -/
def Process.is_ready (p : Process) : Bool × Process :=
  match p.state with
  | .waiting verdict =>
    if verdict then (true, { p with state := .ready }) else (false, p)
  | .ready => (true, p)
  | _ => (false, p)

/-- The scheduler state (`scheduler.rs`): a FIFO of processes and the next id
to hand out. -/
structure Scheduler where
  processes : List Process
  last_id : Option Nat
deriving Repr, DecidableEq

/-- `Scheduler::new()`. -/
def Scheduler.new : Scheduler :=
  ⟨[], some 0⟩

/-- `Scheduler::add(process)`: assign the next id, record it in the process's
`tpidr`, enqueue at the back.  (`last_id` is a u64; the `id + 1` increment is
kept as plain `Nat` arithmetic, `2^64` ids being unreachable.) -/
def Scheduler.add (s : Scheduler) (p : Process) : Option Nat × Scheduler :=
  let id := match s.last_id with
    | some last_id => last_id
    | none => 0
  let p1 := { p with context := { p.context with tpidr := id } }
  (some id, { processes := s.processes ++ [p1], last_id := some (id + 1) })

/-- The scan of `Scheduler::schedule_out`: find the first process whose
`context.tpidr` matches and unlink it. -/
def schedRemoveFirst (tp : Nat) : List Process → Option (Process × List Process)
  | [] => none
  | p :: rest =>
    if p.context.tpidr = tp then some (p, rest)
    else
      match schedRemoveFirst tp rest with
      | none => none
      | some (q, rest1) => some (q, p :: rest1)

/-- `Scheduler::schedule_out(new_state, tf)`: locate the process matching
`tf.tpidr`, overwrite its context with `tf`, set its state, move it to the
back; report whether a match was found. -/
def Scheduler.schedule_out (s : Scheduler) (new_state : PState) (tf : TrapFrame) :
    Bool × Scheduler :=
  match schedRemoveFirst tf.tpidr s.processes with
  | none => (false, s)
  | some (p, rest) =>
    (true, { s with processes := rest ++ [{ p with context := tf, state := new_state }] })

/-- The scan of `Scheduler::switch_to`: walk the queue polling `is_ready`,
stopping at the first ready process, which is set to `Running` in place. -/
def switchToScan : List Process → Option Process × List Process
  | [] => (none, [])
  | p :: rest =>
    let r := p.is_ready
    if r.1 then
      let q := { r.2 with state := PState.running }
      (some q, q :: rest)
    else
      match switchToScan rest with
      | (none, rest1) => (none, r.2 :: rest1)
      | (some q, rest1) => (some q, r.2 :: rest1)

/-- `Scheduler::switch_to(tf)`: first ready process becomes `Running`, its
context is copied into `tf`, and its id (`tf.tpidr` after the copy) is
returned. -/
def Scheduler.switch_to (s : Scheduler) (tf : TrapFrame) :
    Option Nat × TrapFrame × Scheduler :=
  match switchToScan s.processes with
  | (none, procs) => (none, tf, { s with processes := procs })
  | (some q, procs) => (some q.context.tpidr, q.context, { s with processes := procs })

/-- `Scheduler::kill(tf)`: schedule out as `Dead`, then pop from the back and
return the popped process's id — whatever process that happens to be. -/
def Scheduler.kill (s : Scheduler) (tf : TrapFrame) : Option Nat × Scheduler :=
  let s1 := (s.schedule_out .dead tf).2
  match s1.processes.getLast? with
  | none => (none, s1)
  | some p => (some p.context.tpidr, { s1 with processes := s1.processes.dropLast })

/-- `GlobalScheduler::switch_to` (`scheduler.rs` line 68): loop the inner
`switch_to` and `wfi()` until a ready process appears.  The waiting verdicts
of this pure model are fixed, so a state with no ready process spins forever;
that divergence is surfaced as an `Except.error`. -/
def GlobalScheduler.switch_to (s : Scheduler) (tf : TrapFrame) :
    Except String (Nat × TrapFrame × Scheduler) :=
  match Scheduler.switch_to s tf with
  | (some id, tf1, s1) => .ok (id, tf1, s1)
  | (none, _, _) => .error "wfi spin: no ready process"

/-- `GlobalScheduler::switch(new_state, tf)` = `schedule_out` then
`switch_to`. -/
def GlobalScheduler.switch (s : Scheduler) (st : PState) (tf : TrapFrame) :
    Except String (Nat × TrapFrame × Scheduler) :=
  GlobalScheduler.switch_to (s.schedule_out st tf).2 tf

/-! ### `kern/src/traps/syscall.rs` -/

/-- Modelled from the spec: `USER_IMG_BASE` is defined in `kern/src/param.rs`,
which is not under `src/`.  The spec fixes a 1 GiB user address space
(`USER_MAX_VM_SIZE`, L2 indices 0 and 1 only) growing upward from
`USER_IMG_BASE` with `Process::get_max_va = USER_IMG_BASE + USER_MAX_VM_SIZE - 1`
the highest supported address, i.e. the user window is the top gigabyte of the
64-bit space. -/
def USER_IMG_BASE : Nat := 2 ^ 64 - 2 ^ 30

/-- Modelled from the spec: `USER_MAX_VM_SIZE` (`param.rs`, not under `src/`):
the 1 GiB user virtual address space. -/
def USER_MAX_VM_SIZE : Nat := 2 ^ 30

/-- `PAGE_SIZE = 65536` (spec §6; `param.rs` is not under `src/`). -/
def PAGE_SIZE : Nat := 65536

/-- Modelled from the spec: the `OsError` status enum of `lib/kernel_api`
(its `lib.rs` is not under `src/`); §7 lists the variants.  The kernel writes
the literal `1` as the success status, fixing `Ok = 1`; the remaining
discriminants are not pinned down by the spec, so distinct codes are chosen —
no claim depends on their concrete values. -/
inductive OsError where
  | ok
  | noMemory
  | noEntry
  | expectedFileFoundDir
  | badAddress
  | invalidArgument
  | invalidSocket
  | illegalSocketOperation
  | unknown
deriving Repr, DecidableEq

/-- The `e as u64` discriminant written into the status register. -/
def OsError.code : OsError → Nat
  | .unknown => 0
  | .ok => 1
  | .noEntry => 10
  | .noMemory => 20
  | .expectedFileFoundDir => 30
  | .badAddress => 50
  | .invalidArgument => 70
  | .invalidSocket => 200
  | .illegalSocketOperation => 201

/-- Modelled from the spec (§4.6 table): the syscall numbers `NR_*` exported
by `lib/kernel_api` (not under `src/`). -/
def NR_SLEEP : Nat := 1
def NR_TIME : Nat := 2
def NR_EXIT : Nat := 3
def NR_WRITE : Nat := 4
def NR_GETPID : Nat := 5
def NR_WRITE_STR : Nat := 6

/-- `syscall.rs` line 14: `const SYSCALL_ERR_REG_IDX: usize = 6;` — the
general-register index every syscall except `sys_write_str` stores its status
to. -/
def SYSCALL_ERR_REG_IDX : Nat := 6

/-- Ambient inputs of the syscall layer: the scheduler singleton and the
values produced by the external `pi::timer::current_time()` at its three call
sites in `sys_sleep` (at entry, when the new `Waiting` predicate is polled,
and after the scheduler switch returns), in nanoseconds; plus user memory as
a byte oracle. -/
structure SysCtx where
  sched : Scheduler
  timeAtCall : Nat
  timeAtPoll : Nat
  timeAfterSwitch : Nat
  mem : Nat → Nat

/-- `sys_sleep(ms, tf)`: build the deadline predicate, switch away as
`Waiting`, then write the elapsed milliseconds to `gen_reg[0]` and the status
`1` to `gen_reg[SYSCALL_ERR_REG_IDX]` — into whatever trap frame the switch
restored.  (`Duration` arithmetic is in nanoseconds; Rust `Duration`
subtraction panics on underflow, but the monotone clock guarantees
`timeAfterSwitch ≥ timeAtCall`, so truncated subtraction is faithful.) -/
def sys_sleep (ms : Nat) (tf : TrapFrame) (k : SysCtx) :
    Except String (TrapFrame × Scheduler) :=
  let start := k.timeAtCall
  let deadline := start + ms * 1000000
  let verdict := decide (deadline ≤ k.timeAtPoll)
  match GlobalScheduler.switch k.sched (.waiting verdict) tf with
  | .error s => .error s
  | .ok (_, tf1, s1) =>
    .ok ({ tf1 with
           gen_reg := (tf1.gen_reg.set 0 ((k.timeAfterSwitch - start) / 1000000)).set
             SYSCALL_ERR_REG_IDX 1 }, s1)

/-- `sys_time(tf)`: seconds in `gen_reg[0]`, leftover nanoseconds in
`gen_reg[1]`, status `1` in `gen_reg[SYSCALL_ERR_REG_IDX]`. -/
def sys_time (tf : TrapFrame) (k : SysCtx) : TrapFrame :=
  let secs := k.timeAtCall / 1000000000
  { tf with
    gen_reg := ((tf.gen_reg.set 0 secs).set 1 (k.timeAtCall - secs * 1000000000)).set
      SYSCALL_ERR_REG_IDX 1 }

/-- `sys_write(b, tf)`: print the byte, status `1` in
`gen_reg[SYSCALL_ERR_REG_IDX]`. -/
def sys_write (b : Nat) (tf : TrapFrame) : TrapFrame × List Nat :=
  ({ tf with gen_reg := tf.gen_reg.set SYSCALL_ERR_REG_IDX 1 }, [b])

/-- `sys_getpid(tf)`: `gen_reg[0] := tf.tpidr`, status `1` in
`gen_reg[SYSCALL_ERR_REG_IDX]`. -/
def sys_getpid (tf : TrapFrame) : TrapFrame :=
  { tf with gen_reg := (tf.gen_reg.set 0 tf.tpidr).set SYSCALL_ERR_REG_IDX 1 }

/-- UTF-8 continuation byte (`0x80..=0xBF`). -/
def utf8Cont (b : Nat) : Bool :=
  0x80 ≤ b && b ≤ 0xBF

/-- Validity of a byte sequence as UTF-8, the semantics of
`core::str::from_utf8` (RFC 3629 well-formed byte sequences). -/
def utf8Valid : List Nat → Bool
  | [] => true
  | b :: rest =>
    if b ≤ 0x7F then utf8Valid rest
    else if 0xC2 ≤ b && b ≤ 0xDF then
      match rest with
      | c1 :: r => utf8Cont c1 && utf8Valid r
      | [] => false
    else if b = 0xE0 then
      match rest with
      | c1 :: c2 :: r => (0xA0 ≤ c1 && c1 ≤ 0xBF) && utf8Cont c2 && utf8Valid r
      | _ => false
    else if (0xE1 ≤ b && b ≤ 0xEC) || b = 0xEE || b = 0xEF then
      match rest with
      | c1 :: c2 :: r => utf8Cont c1 && utf8Cont c2 && utf8Valid r
      | _ => false
    else if b = 0xED then
      match rest with
      | c1 :: c2 :: r => (0x80 ≤ c1 && c1 ≤ 0x9F) && utf8Cont c2 && utf8Valid r
      | _ => false
    else if b = 0xF0 then
      match rest with
      | c1 :: c2 :: c3 :: r =>
        (0x90 ≤ c1 && c1 ≤ 0xBF) && utf8Cont c2 && utf8Cont c3 && utf8Valid r
      | _ => false
    else if 0xF1 ≤ b && b ≤ 0xF3 then
      match rest with
      | c1 :: c2 :: c3 :: r => utf8Cont c1 && utf8Cont c2 && utf8Cont c3 && utf8Valid r
      | _ => false
    else if b = 0xF4 then
      match rest with
      | c1 :: c2 :: c3 :: r =>
        (0x80 ≤ c1 && c1 ≤ 0x8F) && utf8Cont c2 && utf8Cont c3 && utf8Valid r
      | _ => false
    else false

/-- The bytes `core::slice::from_raw_parts(va, len)` exposes, through the
memory oracle (each cell masked to a byte). -/
def userBytes (mem : Nat → Nat) (va len : Nat) : List Nat :=
  (List.range len).map (fun i => mem (va + i) % 256)

/-- `sys_write_str(va, len, tf)`: `to_user_slice` accepts iff
`va ≥ USER_IMG_BASE` and `va.checked_add(len)` does not overflow
(`va + len ≤ USIZE_MAX`), reporting `BadAddress` otherwise; then
`core::str::from_utf8` must succeed, else `InvalidArgument`.  On success the
string is printed, `gen_reg[0]` receives its length and `gen_reg[7]` the `Ok`
status; on error only `gen_reg[7]` is written.  Returns the updated frame and
the console bytes. -/
def sys_write_str (mem : Nat → Nat) (va len : Nat) (tf : TrapFrame) :
    TrapFrame × List Nat :=
  if USER_IMG_BASE ≤ va ∧ va + len ≤ USIZE_MAX then
    let bytes := userBytes mem va len
    if utf8Valid bytes then
      ({ tf with gen_reg := (tf.gen_reg.set 0 len).set 7 OsError.ok.code }, bytes)
    else
      ({ tf with gen_reg := tf.gen_reg.set 7 OsError.invalidArgument.code }, [])
  else
    ({ tf with gen_reg := tf.gen_reg.set 7 OsError.badAddress.code }, [])

/-- `handle_syscall(num, tf)`: dispatch on the syscall number.  `sys_exit` is
`unimplemented!()` (a panic); an unknown number only logs.  The result carries
the updated frame, the scheduler and the console bytes written. -/
def handle_syscall (num : Nat) (tf : TrapFrame) (k : SysCtx) :
    Except String (TrapFrame × Scheduler × List Nat) :=
  if num = NR_SLEEP then
    match sys_sleep (tf.reg 0 % 2 ^ 32) tf k with
    | .error s => .error s
    | .ok (tf1, s1) => .ok (tf1, s1, [])
  else if num = NR_TIME then .ok (sys_time tf k, k.sched, [])
  else if num = NR_EXIT then .error "unimplemented: sys_exit"
  else if num = NR_WRITE then
    let r := sys_write (tf.reg 0 % 256) tf
    .ok (r.1, k.sched, r.2)
  else if num = NR_GETPID then .ok (sys_getpid tf, k.sched, [])
  else if num = NR_WRITE_STR then
    let r := sys_write_str k.mem (tf.reg 0) (tf.reg 1) tf
    .ok (r.1, k.sched, r.2)
  else .ok (tf, k.sched, [])

/-! ### `kern/src/traps/syndrome.rs` -/

/-- `Fault` (`syndrome.rs`). -/
inductive Fault where
  | addressSize
  | translation
  | accessFlag
  | permission
  | alignment
  | tlbConflict
  | other (v : Nat)
deriving Repr, DecidableEq

/-- `Fault::from(val)`: classify the low six bits; the fallback keeps
`val as u8`. -/
def Fault.ofVal (val : Nat) : Fault :=
  let bits := val &&& 0b111111
  if bits ≤ 0b00011 then .addressSize
  else if bits ≤ 0b00111 then .translation
  else if 0b001001 ≤ bits ∧ bits ≤ 0b001011 then .accessFlag
  else if 0b001101 ≤ bits ∧ bits ≤ 0b001111 then .permission
  else if bits = 0b100001 then .alignment
  else if bits = 0b110000 then .tlbConflict
  else .other (val % 256)

/-- The external `aarch64::current_el()`: the kernel runs at EL1. -/
def current_el : Nat := 1

/-- `Syndrome` (`syndrome.rs`). -/
inductive Syndrome where
  | unknown
  | wfiWfe
  | simdFp
  | illegalExecutionState
  | svc (n : Nat)
  | hvc (n : Nat)
  | smc (n : Nat)
  | msrMrsSystem
  | instructionAbort (kind : Fault) (level : Nat)
  | pcAlignmentFault
  | dataAbort (kind : Fault) (level : Nat)
  | spAlignmentFault
  | trappedFpu
  | serror
  | breakpoint
  | step
  | watchpoint
  | brk (n : Nat)
  | other (v : Nat)
deriving Repr, DecidableEq

/-- `Syndrome::from(esr)`: dispatch on the exception class, ESR bits 26..31;
immediates are `esr as u16`. -/
def Syndrome.ofEsr (esr : Nat) : Syndrome :=
  let bits := esr >>> 26
  if bits = 0b000000 then .unknown
  else if bits = 0b000001 then .wfiWfe
  else if bits = 0b000111 then .simdFp
  else if bits = 0b001110 then .illegalExecutionState
  else if bits = 0b010001 ∨ bits = 0b010101 then .svc (esr % 65536)
  else if bits = 0b010010 ∨ bits = 0b010110 then .hvc (esr % 65536)
  else if bits = 0b010011 ∨ bits = 0b010111 then .smc (esr % 65536)
  else if bits = 0b011000 then .msrMrsSystem
  else if bits = 0b100000 ∨ bits = 0b100001 then .instructionAbort (Fault.ofVal esr) current_el
  else if bits = 0b100010 then .pcAlignmentFault
  else if bits = 0b100100 ∨ bits = 0b100101 then .dataAbort (Fault.ofVal esr) current_el
  else if bits = 0b100110 then .spAlignmentFault
  else if bits = 0b101000 ∨ bits = 0b101100 then .trappedFpu
  else if bits = 0b101111 then .serror
  else if bits = 0b110000 ∨ bits = 0b110001 then .breakpoint
  else if bits = 0b110010 ∨ bits = 0b110011 then .step
  else if bits = 0b110100 ∨ bits = 0b110101 then .watchpoint
  else if bits = 0b111100 then .brk (esr % 65536)
  else .other esr

/-! ### `kern/src/traps.rs` -/

/-- Exception kind (`traps.rs`). -/
inductive Kind where
  | synchronous
  | irq
  | fiq
  | serror
deriving Repr, DecidableEq

/-- Exception source (`traps.rs`). -/
inductive Source where
  | currentSpEl0
  | currentSpElx
  | lowerAArch64
  | lowerAArch32
deriving Repr, DecidableEq

/-- `Info` (`traps.rs`). -/
structure Info where
  source : Source
  kind : Kind
deriving Repr, DecidableEq

/-- `handle_exception(info, esr, far, tf)`.  A synchronous SVC dispatches the
syscall; every other synchronous syndrome is printed, a debug shell runs (it
does not touch the frame), and the link address is advanced by 4.  The IRQ,
FIQ and SError arms drive the dynamic interrupt-handler registries of the
external `pi` crate and are outside this model (no claim concerns them). -/
def handle_exception (info : Info) (esr : Nat) (_far : Nat) (tf : TrapFrame) (k : SysCtx) :
    Except String (TrapFrame × Scheduler × List Nat) :=
  if info.kind = Kind.synchronous then
    match Syndrome.ofEsr esr with
    | .svc num => handle_syscall num tf k
    | _ => .ok (tf.increment_link_addr 4, k.sched, [])
  else
    .error "unmodelled: IRQ, FIQ and SError dispatch"

/-! ### `kern/src/vm/pagetable.rs`

The raw descriptor bitfield helpers (`RawL2Entry`/`RawL3Entry`,
`EntryValid`/`EntryAttr`/`EntryPerm`/`EntrySh`) live in the external `aarch64`
crate's `vmsa.rs`; following the spec (§4.3, "Descriptor fields are the
aarch64 VMSA set"), an L3 descriptor is modelled by its fields.  The L2 table
built by `PageTable::new` only stores the heap addresses of the two owned L3
tables, which a memory-free model cannot name; no claim reads it, so the
page-table value is its pair of L3 tables, indexed `l3 i j` for L2 slot `i`
and L3 slot `j`. -/

/-- `EntryAttr`: normal memory vs device. -/
inductive EntryAttr where
  | mem
  | dev
deriving Repr, DecidableEq

/-- `EntryPerm`: access permissions. -/
inductive EntryPerm where
  | kernRw
  | kernRo
  | userRw
  | userRo
deriving Repr, DecidableEq

/-- `EntrySh`: inner vs outer shareable. -/
inductive EntrySh where
  | ish
  | osh
deriving Repr, DecidableEq

/-- `PageType`: page vs block descriptor. -/
inductive PageType where
  | page
  | block
deriving Repr, DecidableEq

/-- An L3 descriptor by fields: VALID, TYPE, ATTR, AP, SH, AF and the ADDR
field carrying bits 47:16 of the physical page address. -/
structure L3EntryM where
  valid : Bool
  typ : PageType
  attr : EntryAttr
  ap : EntryPerm
  sh : EntrySh
  af : Nat
  addr : Nat
deriving Repr, DecidableEq

/-- `L3Entry::new()` = `RawL3Entry::new(0)`: the all-zero descriptor.  The
typed fields of an invalid descriptor are never read (the code tests `VALID`
first); zero decodes as page/mem/kernRw/ish. -/
def L3EntryM.invalid : L3EntryM :=
  ⟨false, .page, .mem, .kernRw, .ish, 0, 0⟩

/-- A page table as its two L3 tables (`l3 i j` with `i < 2`, `j < 8192`). -/
structure PageTableM where
  l3 : Nat → Nat → L3EntryM

/-- `PageTable::locate(va)`: split a virtual address into (L2 index, L3
index); panics on a page-misaligned address or an L2 index other than 0/1. -/
def PageTable.locate (va : Nat) : Except String (Nat × Nat) :=
  if va % PAGE_SIZE ≠ 0 then .error "virtual address not aligned by page size"
  else
    let l2index := (va >>> 29) &&& 0b1111111111111
    if 2 ≤ l2index then .error "L2index out of range"
    else .ok (l2index, (va >>> 16) &&& 0b1111111111111)

/-- `PagePerm` (`pagetable.rs`). -/
inductive PagePerm where
  | rw
  | ro
  | rwx
deriving Repr, DecidableEq

/-- `UserPageTable::new()`: a fresh table with every L3 entry zeroed. -/
def UserPageTable.new : PageTableM :=
  ⟨fun _ _ => L3EntryM.invalid⟩

/-- The store `self.l3[l2index].entries[l3index] = l3entry`. -/
def pageTableSet (pt : PageTableM) (l2index l3index : Nat) (entry : L3EntryM) : PageTableM :=
  { l3 := fun i j => if i = l2index ∧ j = l3index then entry else pt.l3 i j }

/-- The L3 descriptor built by `UserPageTable::alloc`: valid page, normal
memory, inner-shareable, AF set, user permissions (`RO` maps to `USER_RO`,
everything else to `USER_RW` — the "use perm properly" TODO in the source),
ADDR holding bits 47:16 of the page address. -/
def userL3Entry (perm : PagePerm) (pageAddr : Nat) : L3EntryM :=
  ⟨true, .page, .mem,
    (match perm with
    | .ro => .userRo
    | _ => .userRw), .ish, 1, pageAddr >>> 16⟩

/-- `UserPageTable::alloc(va, perm)`.  `pageAddr` is the pointer returned by
the bin-allocator singleton for the 64 KiB `Page::layout()` request (null is
`0`).  Panics when `va < USER_IMG_BASE`, when `locate` rejects
`va - USER_IMG_BASE`, when the slot is already valid, or when the allocation
failed; otherwise writes the L3 descriptor and returns the updated table plus
the `(address, PAGE_SIZE)` slice handed back to the caller. -/
def UserPageTable.alloc (pt : PageTableM) (va : Nat) (perm : PagePerm) (pageAddr : Nat) :
    Except String (PageTableM × (Nat × Nat)) :=
  if va < USER_IMG_BASE then .error "va is less than USER_IMG_BASE"
  else
    let user_va := va - USER_IMG_BASE
    match PageTable.locate user_va with
    | .error s => .error s
    | .ok (l2index, l3index) =>
      if (pt.l3 l2index l3index).valid then .error "va already allocated"
      else if pageAddr = 0 then .error "failed to allocate page"
      else
        .ok (pageTableSet pt l2index l3index (userL3Entry perm pageAddr),
          (pageAddr, PAGE_SIZE))

/-! ### Concrete inputs used by the evaluation theorems -/

/-- A syscall context with an empty scheduler, the clock at zero and zeroed
user memory. -/
def zeroCtx : SysCtx :=
  ⟨Scheduler.new, 0, 0, 0, fun _ => 0⟩

/-- A running process with id 0 whose saved frame has link address 100. -/
def demoProcA : Process :=
  ⟨{ TrapFrame.default with tpidr := 0, link_addr := 100 }, .running⟩

/-- A ready process with id 1 whose saved frame has link address 500. -/
def demoProcB : Process :=
  ⟨{ TrapFrame.default with tpidr := 1, link_addr := 500 }, .ready⟩

/-- A context whose scheduler queues `demoProcA` (current) then `demoProcB`
(ready). -/
def demoCtx : SysCtx :=
  ⟨⟨[demoProcA, demoProcB], some 2⟩, 0, 0, 0, fun _ => 0⟩

/-- The live trap frame of `demoProcA` at the moment it traps: id 0, link
address 100. -/
def demoTf : TrapFrame :=
  { TrapFrame.default with tpidr := 0, link_addr := 100 }

/-- An ESR encoding `svc #1` taken at EL1: exception class `0b010101`,
immediate 1 (`NR_SLEEP`). -/
def svcSleepEsr : Nat :=
  (0b010101 <<< 26) + NR_SLEEP

/-- The `Info` of a synchronous exception from lower-EL AArch64. -/
def syncInfo : Info :=
  ⟨.lowerAArch64, .synchronous⟩

/-! ### Claim theorems -/

/-- C1: the claim says every syscall handled by `handle_syscall` returns its
status in general register index 7 and nowhere else.  In the code
`SYSCALL_ERR_REG_IDX = 6`: `sys_getpid` — like `sys_sleep`, `sys_time` and
`sys_write` — writes the success status `1` into `gen_reg[6]` and leaves
`gen_reg[7]` untouched, while `sys_write_str` writes its status into
`gen_reg[7]` and leaves `gen_reg[6]` untouched.  This theorem evaluates both
on concrete frames: a `getpid` from the process with id 42 yields status 1 in
register 6, zero in register 7 (and the pid in register 0); a `write_str` with
`va = 0` yields the `BadAddress` status in register 7 and zero in register 6. -/
theorem c1_syscall_status_lands_in_reg6_not_reg7 :
    ((handle_syscall NR_GETPID { TrapFrame.default with tpidr := 42 } zeroCtx).toOption.map
        (fun r => (r.1.reg SYSCALL_ERR_REG_IDX, r.1.reg 7, r.1.reg 0))) = some (1, 0, 42) ∧
    ((handle_syscall NR_WRITE_STR TrapFrame.default zeroCtx).toOption.map
        (fun r => (r.1.reg 6, r.1.reg 7))) = some (0, OsError.badAddress.code) := by
  constructor <;> rfl

/-- C2: the claimed free-list invariant fails right after
`Allocator::new(1, 16384)`.  The first loop halves `size_class` to 4096
(because `align_up(1, 8192) + 8192 = 16384` is not `< end`), but the fill
loop pushes the resulting 4096-byte chunks at 4096 and 8192 onto
`bins[10]` — the `2^13 = 8192`-byte class — without adjusting the class:
the pointer 4096 on list 10 is not `2^13`-aligned, and the two regions the
list-10 invariant ascribes to its blocks, `[8192, 16384)` and
`[4096, 12288)`, overlap. -/
theorem c2_new_small_arena_breaks_free_list_invariant :
    Allocator.new 1 16384 =
      .ok ⟨[[], [], [], [], [], [], [], [], [], [], [8192, 4096]]⟩ ∧
    4096 % 2 ^ (10 + 3) ≠ 0 ∧
    ¬ regionsDisjoint 8192 (2 ^ (10 + 3)) 4096 (2 ^ (10 + 3)) := by
  refine ⟨by rfl, by decide, ?_⟩
  simp [regionsDisjoint]

/-- C7: after `Allocator::new(1, 16384)` (which, by the fill bug shown for C2,
leaves two 4096-byte chunks on the 8192-byte class list), two successive
`alloc(8192, 8)` calls both succeed, returning 8192 and then 4096; the two
live regions `[8192, 16384)` and `[4096, 12288)` overlap, refuting the
claimed disjointness of live allocations (both requests use the power-of-two
alignment 8 ≤ MAX_SIZE_CLASS and a positive size, as the claim requires). -/
theorem c7_live_allocations_can_overlap :
    Allocator.new 1 16384 =
      .ok ⟨[[], [], [], [], [], [], [], [], [], [], [8192, 4096]]⟩ ∧
    Allocator.alloc ⟨[[], [], [], [], [], [], [], [], [], [], [8192, 4096]]⟩ 8192 8 =
      .ok (8192, ⟨[[], [], [], [], [], [], [], [], [], [], [4096]]⟩) ∧
    Allocator.alloc ⟨[[], [], [], [], [], [], [], [], [], [], [4096]]⟩ 8192 8 =
      .ok (4096, ⟨[[], [], [], [], [], [], [], [], [], [], []]⟩) ∧
    ¬ regionsDisjoint 8192 8192 4096 8192 := by
  refine ⟨by rfl, by rfl, by rfl, ?_⟩
  simp [regionsDisjoint]

/-- C8: from a state whose only free block is one 256-byte block `B` on the
256-byte class list (bin 5), `alloc` of 24 bytes (any positive power-of-two
alignment dividing `B`) succeeds returning `B`, and the splits leave exactly
one free block on the 32-byte list (`B + 32`, bin 2), one on the 64-byte list
(`B + 64`, bin 3) and one on the 128-byte list (`B + 128`, bin 4) — each the
upper half of the block just split — and no other free blocks. -/
theorem c8_alloc_24_from_256_splits_into_32_64_128 (B align : Nat)
    (hpow : is_power_of_two align = true) (hal : 0 < align) (hdvd : B % align = 0) :
    Allocator.alloc ⟨[[], [], [], [], [], [B], [], [], [], [], []]⟩ 24 align =
      .ok (B, ⟨[[], [], [B + 32], [B + 64], [B + 128], [], [], [], [], [], []]⟩) := by
  have h0 : align ≠ 0 := hal.ne.symm
  simp only [Allocator.alloc, hpow, Bool.not_true, Bool.or_false, decide_eq_true_eq]
  norm_num
  simp only [show Allocator.map_to_bin 24 = some 2 from by rfl]
  simp only [show NUM_BINS - 2 = 9 from by rfl,
    show Allocator.map_to_bin_class_size 2 = 32 from by rfl]
  simp [allocLoop, allocScanBin, h0, hdvd, Allocator.split_memory_block, Allocator.splitGo,
    show Allocator.map_to_bin 128 = some 4 from by rfl,
    show Allocator.map_to_bin 64 = some 3 from by rfl,
    show Allocator.map_to_bin 32 = some 2 from by rfl,
    show Allocator.map_to_bin 16 = some 1 from by rfl]

/-- Witness for C8 at the concrete block address 256 with alignment 8. -/
theorem c8_alloc_24_from_256_splits_into_32_64_128_witness :
    is_power_of_two 8 = true ∧ 0 < 8 ∧ 256 % 8 = 0 ∧
    Allocator.alloc ⟨[[], [], [], [], [], [256], [], [], [], [], []]⟩ 24 8 =
      .ok (256, ⟨[[], [], [256 + 32], [256 + 64], [256 + 128], [], [], [], [], [], []]⟩) :=
  ⟨by decide, by decide, by decide,
    c8_alloc_24_from_256_splits_into_32_64_128 256 8 (by decide) (by decide) (by decide)⟩

/-! ### Helper lemmas for the alloc scan loop -/

/-- A free-list scan with a nonzero alignment finds nothing when no block on
the list is aligned. -/
theorem allocScanBin_of_no_fit (align : Nat) (h0 : align ≠ 0) :
    ∀ l : List Nat, (∀ v ∈ l, ¬ v % align = 0) → allocScanBin align l = .ok none
  | [], _ => rfl
  | v :: rest, h => by
    have hv := h v (List.mem_cons_self v rest)
    have ih := allocScanBin_of_no_fit align h0 rest (fun w hw => h w (List.mem_cons_of_mem _ hw))
    simp only [allocScanBin, if_neg h0, if_neg hv]
    rw [ih]

/-- The alloc bin loop returns null, state untouched, when none of the bins it
will scan holds an aligned block. -/
theorem allocLoop_of_no_fit (align orig : Nat) (h0 : align ≠ 0) :
    ∀ fuel bin_idx cls bins,
      (∀ j, bin_idx ≤ j → j < bin_idx + fuel → ∀ v ∈ bins.getD j [], ¬ v % align = 0) →
      allocLoop align orig fuel bin_idx cls bins = .ok (0, bins)
  | 0, _, _, _, _ => rfl
  | fuel + 1, bin_idx, cls, bins, h => by
    have hscan := allocScanBin_of_no_fit align h0 (bins.getD bin_idx [])
      (h bin_idx (Nat.le_refl _) (by omega))
    have ih := allocLoop_of_no_fit align orig h0 fuel (bin_idx + 1) (cls * 2) bins
      (fun j hj1 hj2 => h j (by omega) (by omega))
    simp only [allocLoop]
    rw [hscan]
    exact ih

/-- With alignment 0, the alloc bin loop still returns null when every bin it
will scan is empty (the division by zero is never evaluated). -/
theorem allocLoop_zero_align_empty (orig : Nat) :
    ∀ fuel bin_idx cls bins,
      (∀ j, bin_idx ≤ j → j < bin_idx + fuel → bins.getD j [] = []) →
      allocLoop 0 orig fuel bin_idx cls bins = .ok (0, bins)
  | 0, _, _, _, _ => rfl
  | fuel + 1, bin_idx, cls, bins, h => by
    have hbin := h bin_idx (Nat.le_refl _) (by omega)
    have ih := allocLoop_zero_align_empty orig fuel (bin_idx + 1) (cls * 2) bins
      (fun j hj1 hj2 => h j (by omega) (by omega))
    simp only [allocLoop]
    rw [hbin]
    exact ih

/-- With alignment 0, the alloc bin loop hits the Rust division-by-zero panic
of the `% align` test as soon as a scanned bin holds any block. -/
theorem allocLoop_zero_align_block (orig : Nat) :
    ∀ fuel bin_idx cls bins,
      (∃ j, bin_idx ≤ j ∧ j < bin_idx + fuel ∧ bins.getD j [] ≠ []) →
      allocLoop 0 orig fuel bin_idx cls bins = .error "remainder by zero"
  | 0, bin_idx, _, _, h => by
    rcases h with ⟨j, hj1, hj2, _⟩
    omega
  | fuel + 1, bin_idx, cls, bins, h => by
    rcases h with ⟨j, hj1, hj2, hne⟩
    simp only [allocLoop]
    cases hbin : bins.getD bin_idx [] with
    | nil =>
      have hj : bin_idx + 1 ≤ j := by
        rcases Nat.eq_or_lt_of_le hj1 with heq | hlt
        · exact absurd hbin (heq ▸ hne)
        · omega
      exact allocLoop_zero_align_block orig fuel (bin_idx + 1) (cls * 2) bins
        ⟨j, hj, by omega, hne⟩
    | cons v rest => rfl

/-- `map_to_bin`'s loop increments the bin index at most once per fuel step. -/
theorem mapToBinGo_le : ∀ fuel size bs idx, mapToBinGo fuel size bs idx ≤ idx + fuel
  | 0, _, _, idx => Nat.le_refl idx
  | fuel + 1, size, bs, idx => by
    simp only [mapToBinGo]
    split
    · have := mapToBinGo_le fuel size (bs * 2) (idx + 1)
      omega
    · omega

/-- C3 (amended): for every allocator state and every `size`, `align`
representable as `usize`, `alloc` returns the null sentinel with the free
lists untouched when (i) `size` exceeds the largest size class, (ii) `align`
is nonzero and not a power of two, (iii) the request is well formed but no
scanned bin holds a suitably aligned block (out of memory), or (iv)
`align = 0` and every bin the loop scans is empty.  The original claim's
remaining case is false: (v) `align = 0` is accepted by the buggy
`is_power_of_two` and, as soon as a scanned bin holds any block, `alloc`
panics with a division by zero instead of returning the null sentinel. -/
theorem c3_alloc_error_paths (a : Allocator) (size align m : Nat) :
    (MAX_SIZE_CLASS < size → Allocator.alloc a size align = .ok (0, a)) ∧
    (0 < align → is_power_of_two align = false → Allocator.alloc a size align = .ok (0, a)) ∧
    (0 < align → is_power_of_two align = true → 0 < size → size ≤ MAX_SIZE_CLASS →
      (∀ j, j < NUM_BINS → ∀ v ∈ a.bins.getD j [], ¬ v % align = 0) →
      Allocator.alloc a size align = .ok (0, a)) ∧
    (align = 0 → 0 < size → size ≤ MAX_SIZE_CLASS →
      (∀ j, j < NUM_BINS → a.bins.getD j [] = []) →
      Allocator.alloc a size align = .ok (0, a)) ∧
    (align = 0 → 0 < size → Allocator.map_to_bin size = some m →
      (∃ j, m ≤ j ∧ j < NUM_BINS ∧ a.bins.getD j [] ≠ []) →
      Allocator.alloc a size align = .error "remainder by zero") := by
  refine ⟨?_, ?_, ?_, ?_, ?_⟩
  · intro hbig
    have hpos : size ≠ 0 := by
      have : (0 : Nat) < MAX_SIZE_CLASS := by decide
      omega
    by_cases hp : is_power_of_two align
    · simp [Allocator.alloc, hp, hpos, Allocator.map_to_bin, hbig]
    · simp [Allocator.alloc, hp]
  · intro _ hp
    simp [Allocator.alloc, hp]
  · intro hal hp hpos hle hno
    have hm : mapToBinGo NUM_BINS size MIN_SIZE_CLASS 0 ≤ NUM_BINS := by
      have := mapToBinGo_le NUM_BINS size MIN_SIZE_CLASS 0
      omega
    have hloop := allocLoop_of_no_fit align
      (Allocator.map_to_bin_class_size (mapToBinGo NUM_BINS size MIN_SIZE_CLASS 0)) hal.ne.symm
      (NUM_BINS - mapToBinGo NUM_BINS size MIN_SIZE_CLASS 0)
      (mapToBinGo NUM_BINS size MIN_SIZE_CLASS 0)
      (Allocator.map_to_bin_class_size (mapToBinGo NUM_BINS size MIN_SIZE_CLASS 0)) a.bins
      (fun j hj1 hj2 v hv => hno j (by omega) v hv)
    simp [Allocator.alloc, hp, hpos.ne.symm, Allocator.map_to_bin, Nat.not_lt.2 hle, hloop]
  · intro hal hpos hle hempty
    subst hal
    have hm : mapToBinGo NUM_BINS size MIN_SIZE_CLASS 0 ≤ NUM_BINS := by
      have := mapToBinGo_le NUM_BINS size MIN_SIZE_CLASS 0
      omega
    have hloop := allocLoop_zero_align_empty
      (Allocator.map_to_bin_class_size (mapToBinGo NUM_BINS size MIN_SIZE_CLASS 0))
      (NUM_BINS - mapToBinGo NUM_BINS size MIN_SIZE_CLASS 0)
      (mapToBinGo NUM_BINS size MIN_SIZE_CLASS 0)
      (Allocator.map_to_bin_class_size (mapToBinGo NUM_BINS size MIN_SIZE_CLASS 0)) a.bins
      (fun j hj1 hj2 => hempty j (by omega))
    simp [Allocator.alloc, hpos.ne.symm, Allocator.map_to_bin, Nat.not_lt.2 hle, hloop]
  · intro hal hpos hmap hex
    subst hal
    have hmle : m ≤ NUM_BINS := by
      have := mapToBinGo_le NUM_BINS size MIN_SIZE_CLASS 0
      simp [Allocator.map_to_bin] at hmap
      omega
    rcases hex with ⟨j, hj1, hj2, hne⟩
    have hloop := allocLoop_zero_align_block
      (Allocator.map_to_bin_class_size m) (NUM_BINS - m) m
      (Allocator.map_to_bin_class_size m) a.bins ⟨j, hj1, by omega, hne⟩
    simp [Allocator.alloc, hpos.ne.symm, hmap, hloop,
      show is_power_of_two 0 = true from rfl]

/-- C3 counterexample: with one 8-byte block free, `alloc(1, 0)` does not
return the null sentinel — `is_power_of_two 0` is `true`, so the guard passes
and the alignment scan divides by zero (a Rust panic). -/
theorem c3_align_zero_is_not_rejected :
    Allocator.alloc ⟨[[8], [], [], [], [], [], [], [], [], [], []]⟩ 1 0 =
      .error "remainder by zero" ∧ is_power_of_two 0 = true := by
  constructor <;> rfl

/-- Witness for C3 (amended) at a concrete input: the out-of-memory path with
all bins empty, `size = 9`, `align = 8` returns null and leaves the state
unchanged. -/
theorem c3_alloc_error_paths_witness :
    (0 : Nat) < 8 ∧ is_power_of_two 8 = true ∧ (0 : Nat) < 9 ∧ 9 ≤ MAX_SIZE_CLASS ∧
    Allocator.alloc ⟨[[], [], [], [], [], [], [], [], [], [], []]⟩ 9 8 =
      .ok (0, ⟨[[], [], [], [], [], [], [], [], [], [], []]⟩) :=
  ⟨by decide, by decide, by decide, by decide,
    (c3_alloc_error_paths ⟨[[], [], [], [], [], [], [], [], [], [], []]⟩ 9 8 0).2.2.1
      (by decide) (by decide) (by decide) (by decide) (by decide)⟩
/-- Writing one general register leaves every other register readable
unchanged. -/
theorem regGetDSetNe (l : List Nat) (i j v : Nat) (h : i ≠ j) :
    (l.set i v).getD j 0 = l.getD j 0 := by
  simp [List.getD_eq_getElem?_getD, List.getElem?_set_ne h]

/-- C4: `sys_write_str(va, len)` (i) sets the `BadAddress` status in
`gen_reg[7]` whenever `va < USER_IMG_BASE` or `va + len` overflows `usize`,
printing nothing and leaving register 0 unchanged; (ii) sets the
`InvalidArgument` status when the user bytes are not valid UTF-8, again
printing nothing and leaving register 0 unchanged; (iii) on success prints
exactly the user bytes and stores their length in register 0 with the `Ok`
status in `gen_reg[7]`. -/
theorem c4_sys_write_str_validation (mem : Nat → Nat) (va len : Nat) (tf : TrapFrame) :
    (va < USER_IMG_BASE ∨ USIZE_MAX < va + len →
      sys_write_str mem va len tf =
        ({ tf with gen_reg := tf.gen_reg.set 7 OsError.badAddress.code }, []) ∧
      (sys_write_str mem va len tf).1.reg 0 = tf.reg 0) ∧
    (USER_IMG_BASE ≤ va → va + len ≤ USIZE_MAX →
      utf8Valid (userBytes mem va len) = false →
      sys_write_str mem va len tf =
        ({ tf with gen_reg := tf.gen_reg.set 7 OsError.invalidArgument.code }, []) ∧
      (sys_write_str mem va len tf).1.reg 0 = tf.reg 0) ∧
    (USER_IMG_BASE ≤ va → va + len ≤ USIZE_MAX →
      utf8Valid (userBytes mem va len) = true →
      sys_write_str mem va len tf =
        ({ tf with gen_reg := (tf.gen_reg.set 0 len).set 7 OsError.ok.code },
          userBytes mem va len) ∧
      (0 < tf.gen_reg.length → (sys_write_str mem va len tf).1.reg 0 = len)) := by
  refine ⟨?_, ?_, ?_⟩
  · intro h
    have hcond : ¬ (USER_IMG_BASE ≤ va ∧ va + len ≤ USIZE_MAX) := by omega
    constructor
    · simp [sys_write_str, hcond]
    · simp [sys_write_str, hcond, TrapFrame.reg, regGetDSetNe _ 7 0 _ (by decide)]
  · intro h1 h2 hbad
    have hcond : USER_IMG_BASE ≤ va ∧ va + len ≤ USIZE_MAX := ⟨h1, h2⟩
    constructor
    · simp [sys_write_str, hcond, hbad]
    · simp [sys_write_str, hcond, hbad, TrapFrame.reg, regGetDSetNe _ 7 0 _ (by decide)]
  · intro h1 h2 hok
    have hcond : USER_IMG_BASE ≤ va ∧ va + len ≤ USIZE_MAX := ⟨h1, h2⟩
    constructor
    · simp [sys_write_str, hcond, hok]
    · intro hlen
      simp [sys_write_str, hcond, hok, TrapFrame.reg, regGetDSetNe _ 7 0 _ (by decide)]
      simp [List.getD_eq_getElem?_getD, List.getElem?_set_self', List.getElem?_eq_getElem hlen]

/-- Witness for C4: the spec's own boundary example
`va = USER_IMG_BASE - 1, len = 1` yields `BadAddress`, no console output and
an untouched register 0; and a valid one-byte string at `USER_IMG_BASE`
prints and returns length 1. -/
theorem c4_sys_write_str_validation_witness :
    USER_IMG_BASE - 1 < USER_IMG_BASE ∧
    (sys_write_str (fun _ => 104) (USER_IMG_BASE - 1) 1 TrapFrame.default =
      ({ TrapFrame.default with
         gen_reg := TrapFrame.default.gen_reg.set 7 OsError.badAddress.code }, []) ∧
      (sys_write_str (fun _ => 104) (USER_IMG_BASE - 1) 1 TrapFrame.default).1.reg 0 =
        TrapFrame.default.reg 0) ∧
    (sys_write_str (fun _ => 104) USER_IMG_BASE 1 TrapFrame.default =
      ({ TrapFrame.default with
         gen_reg := (TrapFrame.default.gen_reg.set 0 1).set 7 OsError.ok.code },
        userBytes (fun _ => 104) USER_IMG_BASE 1) ∧
      (0 < TrapFrame.default.gen_reg.length →
        (sys_write_str (fun _ => 104) USER_IMG_BASE 1 TrapFrame.default).1.reg 0 = 1)) :=
  ⟨by decide,
    (c4_sys_write_str_validation (fun _ => 104) (USER_IMG_BASE - 1) 1 TrapFrame.default).1
      (Or.inl (by decide)),
    (c4_sys_write_str_validation (fun _ => 104) USER_IMG_BASE 1 TrapFrame.default).2.2
      (by decide) (by decide) (by decide)⟩

/-! ### Helper lemmas for `UserPageTable::alloc` -/

/-- For `va ≥ USER_IMG_BASE`, `UserPageTable::alloc` proceeds to the table
walk on `va - USER_IMG_BASE`. -/
theorem userAllocEq (pt : PageTableM) (va : Nat) (perm : PagePerm) (pageAddr : Nat)
    (hnb : ¬ va < USER_IMG_BASE) :
    UserPageTable.alloc pt va perm pageAddr =
      (match PageTable.locate (va - USER_IMG_BASE) with
      | .error s => .error s
      | .ok (l2index, l3index) =>
        if (pt.l3 l2index l3index).valid then .error "va already allocated"
        else if pageAddr = 0 then .error "failed to allocate page"
        else
          .ok (pageTableSet pt l2index l3index (userL3Entry perm pageAddr),
            (pageAddr, PAGE_SIZE))) := by
  unfold UserPageTable.alloc
  rw [if_neg hnb]

/-- `locate` on a page-aligned address with a legal L2 index returns the two
table indices. -/
theorem locateOk (u : Nat) (h1 : u % PAGE_SIZE = 0) (h2 : ¬ 2 ≤ (u >>> 29) &&& 8191) :
    PageTable.locate u = .ok ((u >>> 29) &&& 8191, (u >>> 16) &&& 8191) := by
  unfold PageTable.locate
  simp only [ne_eq]
  rw [if_neg (not_not_intro h1), if_neg h2]

/-- For `va ≥ USER_IMG_BASE` with the table walk resolving to slot `(i, j)`,
`UserPageTable::alloc` reduces to the valid/null checks on that slot. -/
theorem userAllocOkEq (pt : PageTableM) (va : Nat) (perm : PagePerm) (pageAddr i j : Nat)
    (hnb : ¬ va < USER_IMG_BASE)
    (hloc : PageTable.locate (va - USER_IMG_BASE) = .ok (i, j)) :
    UserPageTable.alloc pt va perm pageAddr =
      (if (pt.l3 i j).valid then .error "va already allocated"
      else if pageAddr = 0 then .error "failed to allocate page"
      else
        .ok (pageTableSet pt i j (userL3Entry perm pageAddr), (pageAddr, PAGE_SIZE))) := by
  rw [userAllocEq pt va perm pageAddr hnb, hloc]

/-- Storing an L3 entry makes exactly that slot read back the entry. -/
theorem pageTableSet_self (pt : PageTableM) (i j : Nat) (e : L3EntryM) :
    (pageTableSet pt i j e).l3 i j = e := by
  simp [pageTableSet]

/-- C5: for every page-aligned `va` with `USER_IMG_BASE ≤ va ≤ USIZE_MAX`, a
table whose slot for `va` is invalid, and a successful page allocation
(`pageAddr ≠ 0`): the first `alloc(va, perm)` returns the
`(pageAddr, PAGE_SIZE)` slice over the fresh page and marks the located L3
entry valid; a second `alloc` at the same `va` on the resulting table panics
("va already allocated"); and `alloc` at any `va < USER_IMG_BASE` panics.
(`USER_IMG_BASE = 2^64 - 2^30`, so `va - USER_IMG_BASE < 2^30` and the L2
index is always legal.) -/
theorem c5_user_page_table_alloc (pt : PageTableM) (va pageAddr : Nat) (perm : PagePerm)
    (hva : va % PAGE_SIZE = 0) (hbase : USER_IMG_BASE ≤ va) (hmax : va ≤ USIZE_MAX)
    (hpa : pageAddr ≠ 0)
    (hslot : (pt.l3 (((va - USER_IMG_BASE) >>> 29) &&& 8191)
        (((va - USER_IMG_BASE) >>> 16) &&& 8191)).valid = false) :
    UserPageTable.alloc pt va perm pageAddr =
      .ok (pageTableSet pt (((va - USER_IMG_BASE) >>> 29) &&& 8191)
        (((va - USER_IMG_BASE) >>> 16) &&& 8191) (userL3Entry perm pageAddr),
        (pageAddr, PAGE_SIZE)) ∧
    ((pageTableSet pt (((va - USER_IMG_BASE) >>> 29) &&& 8191)
        (((va - USER_IMG_BASE) >>> 16) &&& 8191) (userL3Entry perm pageAddr)).l3
      (((va - USER_IMG_BASE) >>> 29) &&& 8191)
      (((va - USER_IMG_BASE) >>> 16) &&& 8191)).valid = true ∧
    (∀ pageAddr2 perm2,
      UserPageTable.alloc
        (pageTableSet pt (((va - USER_IMG_BASE) >>> 29) &&& 8191)
          (((va - USER_IMG_BASE) >>> 16) &&& 8191) (userL3Entry perm pageAddr))
        va perm2 pageAddr2 = .error "va already allocated") ∧
    (∀ va2, va2 < USER_IMG_BASE →
      UserPageTable.alloc pt va2 perm pageAddr = .error "va is less than USER_IMG_BASE") := by
  have hnb : ¬ va < USER_IMG_BASE := Nat.not_lt.2 hbase
  have hB : USER_IMG_BASE = 18446744072635809792 := by norm_num [USER_IMG_BASE]
  have hM : USIZE_MAX = 18446744073709551615 := by norm_num [USIZE_MAX]
  have hP : PAGE_SIZE = 65536 := rfl
  have humod : (va - USER_IMG_BASE) % PAGE_SIZE = 0 := by
    rw [hP] at hva ⊢
    rw [hB]
    rw [hB] at hbase
    omega
  have hu : va - USER_IMG_BASE < 2 ^ 30 := by
    rw [hM] at hmax
    rw [hB]
    omega
  have hshift : (va - USER_IMG_BASE) >>> 29 < 2 := by
    rw [Nat.shiftRight_eq_div_pow]
    omega
  have hland : ((va - USER_IMG_BASE) >>> 29) &&& 8191 < 2 := by
    have h13 : (8191 : Nat) = 2 ^ 13 - 1 := by norm_num
    rw [h13, Nat.and_pow_two_sub_one_eq_mod]
    exact Nat.lt_of_le_of_lt (Nat.mod_le _ _) hshift
  have hl2 : ¬ 2 ≤ ((va - USER_IMG_BASE) >>> 29) &&& 8191 := Nat.not_le.2 hland
  have hvalid := pageTableSet_self pt (((va - USER_IMG_BASE) >>> 29) &&& 8191)
    (((va - USER_IMG_BASE) >>> 16) &&& 8191) (userL3Entry perm pageAddr)
  refine ⟨?_, ?_, ?_, ?_⟩
  · rw [userAllocOkEq pt va perm pageAddr _ _ hnb (locateOk _ humod hl2)]
    simp [hslot, hpa]
  · rw [hvalid]
    rfl
  · intro pageAddr2 perm2
    rw [userAllocOkEq _ va perm2 pageAddr2 _ _ hnb (locateOk _ humod hl2)]
    rw [hvalid]
    simp [show (userL3Entry perm pageAddr).valid = true from rfl]
  · intro va2 hva2
    unfold UserPageTable.alloc
    rw [if_pos hva2]

/-- Witness for C5 at `va = USER_IMG_BASE` on a fresh user table with the page
at address 65536: the first `alloc` maps slot (0,0) and returns the page
slice, the second panics, and `alloc` at `va = 5` panics. -/
theorem c5_user_page_table_alloc_witness :
    UserPageTable.alloc UserPageTable.new USER_IMG_BASE .rw 65536 =
      .ok (pageTableSet UserPageTable.new 0 0 (userL3Entry .rw 65536), (65536, PAGE_SIZE)) ∧
    ((pageTableSet UserPageTable.new 0 0 (userL3Entry .rw 65536)).l3 0 0).valid = true ∧
    UserPageTable.alloc (pageTableSet UserPageTable.new 0 0 (userL3Entry .rw 65536))
      USER_IMG_BASE .ro 3 = .error "va already allocated" ∧
    UserPageTable.alloc UserPageTable.new 5 .rw 65536 =
      .error "va is less than USER_IMG_BASE" :=
  have h := c5_user_page_table_alloc UserPageTable.new USER_IMG_BASE 65536 PagePerm.rw
    (by decide) (by decide) (by decide) (by decide) rfl
  ⟨h.1, h.2.1, h.2.2.1 3 PagePerm.ro, h.2.2.2 5 (by decide)⟩
/-- A synchronous exception whose syndrome decodes to an SVC dispatches to
`handle_syscall`. -/
theorem handle_exception_svc (info : Info) (esr far : Nat) (tf : TrapFrame) (k : SysCtx)
    (n : Nat) (hk : info.kind = Kind.synchronous) (hs : Syndrome.ofEsr esr = .svc n) :
    handle_exception info esr far tf k = handle_syscall n tf k := by
  unfold handle_exception
  rw [if_pos hk, hs]

/-- `sys_write_str` never touches the link address. -/
theorem sys_write_str_link (mem : Nat → Nat) (va len : Nat) (tf : TrapFrame) :
    (sys_write_str mem va len tf).1.link_addr = tf.link_addr := by
  unfold sys_write_str
  split
  · dsimp only
    split <;> rfl
  · rfl

/-- C6 (amended): for every synchronous exception whose syndrome is not an
SVC, `handle_exception` increases the trap frame's link address by exactly 4
(u64 wrapping) and changes nothing else before returning.  For an SVC the
dispatcher itself never adjusts the link address, and every syscall other
than `sleep` that returns leaves it unchanged (`exit` panics; the original
claim fails for `sleep`, which can replace the whole frame — link address
included — with the next scheduled process's saved context, see the
counterexample). -/
theorem c6_link_addr_discipline (info : Info) (esr far : Nat) (tf : TrapFrame) (k : SysCtx) :
    (info.kind = Kind.synchronous →
      (∀ n, Syndrome.ofEsr esr ≠ Syndrome.svc n) →
      handle_exception info esr far tf k =
        .ok ({ tf with link_addr := (tf.link_addr + 4) % 2 ^ 64 }, k.sched, [])) ∧
    (∀ n tf1 s1 out, info.kind = Kind.synchronous → Syndrome.ofEsr esr = .svc n →
      n ≠ NR_SLEEP →
      handle_exception info esr far tf k = .ok (tf1, s1, out) →
      tf1.link_addr = tf.link_addr) := by
  constructor
  · intro hk hns
    unfold handle_exception
    rw [if_pos hk]
    cases hs : Syndrome.ofEsr esr <;>
      first
        | exact absurd hs (hns _)
        | rfl
  · intro n tf1 s1 out hk hs hn hok
    rw [handle_exception_svc info esr far tf k n hk hs] at hok
    unfold handle_syscall at hok
    rw [if_neg hn] at hok
    split at hok
    · simp only [Except.ok.injEq, Prod.mk.injEq] at hok
      obtain ⟨h1, _, _⟩ := hok
      subst h1
      rfl
    · split at hok
      · simp at hok
      · split at hok
        · simp only [Except.ok.injEq, Prod.mk.injEq] at hok
          obtain ⟨h1, _, _⟩ := hok
          subst h1
          rfl
        · split at hok
          · simp only [Except.ok.injEq, Prod.mk.injEq] at hok
            obtain ⟨h1, _, _⟩ := hok
            subst h1
            rfl
          · split at hok
            · simp only [Except.ok.injEq, Prod.mk.injEq] at hok
              obtain ⟨h1, _, _⟩ := hok
              subst h1
              exact sys_write_str_link k.mem (tf.reg 0) (tf.reg 1) tf
            · simp only [Except.ok.injEq, Prod.mk.injEq] at hok
              obtain ⟨h1, _, _⟩ := hok
              subst h1
              rfl

/-- C6 counterexample: an `svc #1` (`NR_SLEEP`) from the running process with
link address 100, with a second process ready whose saved link address is
500, returns with the trap frame's link address equal to 500 — an SVC for
which `handle_exception` does not leave the link address unchanged. -/
theorem c6_sleep_svc_changes_link_addr :
    (handle_exception syncInfo svcSleepEsr 0 demoTf demoCtx).toOption.map
      (fun r => r.1.link_addr) = some 500 ∧ demoTf.link_addr = 100 ∧
    Syndrome.ofEsr svcSleepEsr = .svc NR_SLEEP ∧ syncInfo.kind = Kind.synchronous :=
  ⟨rfl, rfl, rfl, rfl⟩

/-- Witness for C6 (amended): a synchronous Unknown exception (`esr = 0`)
advances the link address 100 to 104; a `getpid` SVC
(`esr = 1409286149 = (0b010101 << 26) + 5`) leaves it unchanged. -/
theorem c6_link_addr_discipline_witness :
    handle_exception syncInfo 0 0 demoTf demoCtx =
      .ok ({ demoTf with link_addr := (demoTf.link_addr + 4) % 2 ^ 64 }, demoCtx.sched, []) ∧
    (sys_getpid demoTf).link_addr = demoTf.link_addr :=
  ⟨(c6_link_addr_discipline syncInfo 0 0 demoTf demoCtx).1 rfl
      (fun _ h => Syndrome.noConfusion
        ((rfl : Syndrome.ofEsr 0 = Syndrome.unknown).symm.trans h)),
    (c6_link_addr_discipline syncInfo 1409286149 0 demoTf demoCtx).2 5 (sys_getpid demoTf)
      demoCtx.sched [] rfl rfl (by decide) rfl⟩
/-- Polling a process that is not ready leaves it unchanged (a non-firing
`Waiting` predicate is swapped back in place). -/
theorem is_ready_false_fix (q : Process) (h : q.is_ready.1 = false) : q.is_ready.2 = q := by
  cases hq : q.state <;> simp [Process.is_ready, hq] at h ⊢
  case waiting b =>
    cases b
    · rfl
    · simp at h

/-- The `switch_to` scan over a queue of not-ready processes followed by a
ready one selects that last process, marks it `Running` in place, and leaves
every earlier process unchanged. -/
theorem switchToScan_append_ready (procs : List Process) (p : Process)
    (hall : ∀ q ∈ procs, q.is_ready.1 = false) (hp : p.is_ready.1 = true) :
    switchToScan (procs ++ [p]) =
      (some { p.is_ready.2 with state := .running },
        procs ++ [{ p.is_ready.2 with state := .running }]) := by
  induction procs with
  | nil => simp [switchToScan, hp]
  | cons q rest ih =>
    have hq := hall q (List.mem_cons_self q rest)
    have ih1 := ih (fun w hw => hall w (List.mem_cons_of_mem _ hw))
    simp [switchToScan, hq, ih1, is_ready_false_fix q hq]

/-- C9: `add` hands out exactly the next id (the stored `last_id`, which
starts at 0 in `Scheduler::new` and increments on every add), writes it into
the process's `tpidr`, enqueues the process at the back, and returns it; and
when `switch_to` selects that process (here: it is ready and nothing before
it in the queue is), it returns that same id and copies the process's context
into the trap frame, so `tf.tpidr` equals the id from then on. -/
theorem c9_add_switch_to_round_trip (s : Scheduler) (p : Process) (tf : TrapFrame) (l : Nat)
    (hl : s.last_id = some l) :
    (Scheduler.add s p).1 = some l ∧
    (Scheduler.add s p).2.last_id = some (l + 1) ∧
    (Scheduler.add s p).2.processes =
      s.processes ++ [{ p with context := { p.context with tpidr := l } }] ∧
    (p.state = PState.ready →
      (∀ q ∈ s.processes, q.is_ready.1 = false) →
      (Scheduler.switch_to (Scheduler.add s p).2 tf).1 = some l ∧
      ((Scheduler.switch_to (Scheduler.add s p).2 tf).2.1).tpidr = l) := by
  refine ⟨by simp [Scheduler.add, hl], by simp [Scheduler.add, hl],
    by simp [Scheduler.add, hl], ?_⟩
  intro hp hall
  have hp1 : ({ p with context := { p.context with tpidr := l } } : Process).is_ready =
      (true, { p with context := { p.context with tpidr := l } }) := by
    simp [Process.is_ready, hp]
  have hscan := switchToScan_append_ready s.processes
    { p with context := { p.context with tpidr := l } } hall (by rw [hp1])
  rw [hp1] at hscan
  have hadd : (Scheduler.add s p).2.processes =
      s.processes ++ [{ p with context := { p.context with tpidr := l } }] := by
    simp [Scheduler.add, hl]
  unfold Scheduler.switch_to
  rw [hadd, hscan]
  exact ⟨rfl, rfl⟩

/-- The `schedule_out` scan finds nothing when no process matches the trap
frame's `tpidr`. -/
theorem schedRemoveFirst_none (tp : Nat) :
    ∀ l : List Process, (∀ q ∈ l, q.context.tpidr ≠ tp) → schedRemoveFirst tp l = none
  | [], _ => rfl
  | q :: rest, h => by
    have hq := h q (List.mem_cons_self q rest)
    have ih := schedRemoveFirst_none tp rest (fun w hw => h w (List.mem_cons_of_mem _ hw))
    simp [schedRemoveFirst, hq, ih]

/-- `schedule_out` with no matching process reports `false` and leaves the
scheduler untouched. -/
theorem schedule_out_no_match (s : Scheduler) (st : PState) (tf : TrapFrame)
    (h : ∀ q ∈ s.processes, q.context.tpidr ≠ tf.tpidr) :
    Scheduler.schedule_out s st tf = (false, s) := by
  unfold Scheduler.schedule_out
  rw [schedRemoveFirst_none tf.tpidr s.processes h]

/-- `schedule_out` preserves queue emptiness (it only rotates the queue). -/
theorem schedule_out_nil_iff (s : Scheduler) (st : PState) (tf : TrapFrame) :
    (Scheduler.schedule_out s st tf).2.processes = [] ↔ s.processes = [] := by
  unfold Scheduler.schedule_out
  cases hrem : schedRemoveFirst tf.tpidr s.processes with
  | none => simp
  | some pr =>
    cases hnil : s.processes with
    | nil => rw [hnil] at hrem; simp [schedRemoveFirst] at hrem
    | cons a as => simp

/-- C10: `kill(tf)` removes whatever process sits at the back of the queue
after the `schedule_out` attempt and returns `some` of that process's id; it
returns `none` exactly when the queue is empty.  When no process matches
`tf.tpidr`, `schedule_out` is a no-op, yet `kill` still pops the original
back process — whose id is then not the one described by `tf`. -/
theorem c10_kill_pops_back_regardless (s : Scheduler) (tf : TrapFrame) :
    ((Scheduler.kill s tf).1 = none ↔ s.processes = []) ∧
    ((Scheduler.kill s tf).1 =
      ((Scheduler.schedule_out s .dead tf).2.processes.getLast?).map
        (fun p => p.context.tpidr)) ∧
    ((∀ q ∈ s.processes, q.context.tpidr ≠ tf.tpidr) →
      Scheduler.schedule_out s .dead tf = (false, s) ∧
      (Scheduler.kill s tf).1 = s.processes.getLast?.map (fun p => p.context.tpidr) ∧
      (Scheduler.kill s tf).2.processes = s.processes.dropLast ∧
      (s.processes ≠ [] → (Scheduler.kill s tf).1 ≠ some tf.tpidr)) := by
  have hb : (Scheduler.kill s tf).1 =
      ((Scheduler.schedule_out s .dead tf).2.processes.getLast?).map
        (fun p => p.context.tpidr) := by
    unfold Scheduler.kill
    cases hg : (Scheduler.schedule_out s .dead tf).2.processes.getLast? with
    | none => simp [hg]
    | some p => simp [hg]
  refine ⟨?_, hb, ?_⟩
  · rw [hb]
    
    constructor
    · intro h
      rcases Option.map_eq_none'.1 h with h1
      exact (schedule_out_nil_iff s .dead tf).1 (List.getLast?_eq_none_iff.1 h1)
    · intro h
      have : (Scheduler.schedule_out s .dead tf).2.processes = [] :=
        (schedule_out_nil_iff s .dead tf).2 h
      simp [this]
  · intro hno
    have hso := schedule_out_no_match s .dead tf hno
    have hkill1 : (Scheduler.kill s tf).1 =
        s.processes.getLast?.map (fun p => p.context.tpidr) := by
      rw [hb, hso]
    refine ⟨hso, hkill1, ?_, ?_⟩
    · unfold Scheduler.kill
      rw [hso]
      cases hg : s.processes.getLast? with
      | none =>
        simp [hg]
        exact (List.getLast?_eq_none_iff.1 hg).symm ▸ rfl
      | some p => simp [hg]
    · intro hne hsome
      rw [hkill1] at hsome
      cases hg : s.processes.getLast? with
      | none => rw [hg] at hsome; simp at hsome
      | some p =>
        rw [hg] at hsome
        simp at hsome
        exact hno p (List.mem_of_getLast?_eq_some hg) hsome

/-- Witness for C9: adding a ready process to a fresh scheduler assigns id 0,
bumps `last_id` to 1, enqueues it with `tpidr = 0`, and `switch_to` then
returns id 0 with `tf.tpidr = 0`. -/
theorem c9_add_switch_to_round_trip_witness :
    (Scheduler.add Scheduler.new ⟨TrapFrame.default, .ready⟩).1 = some 0 ∧
    (Scheduler.add Scheduler.new ⟨TrapFrame.default, .ready⟩).2.last_id = some 1 ∧
    (Scheduler.add Scheduler.new ⟨TrapFrame.default, .ready⟩).2.processes =
      [] ++ [⟨{ TrapFrame.default with tpidr := 0 }, .ready⟩] ∧
    ((Scheduler.switch_to (Scheduler.add Scheduler.new ⟨TrapFrame.default, .ready⟩).2
        TrapFrame.default).1 = some 0 ∧
      ((Scheduler.switch_to (Scheduler.add Scheduler.new ⟨TrapFrame.default, .ready⟩).2
        TrapFrame.default).2.1).tpidr = 0) :=
  have h := c9_add_switch_to_round_trip Scheduler.new ⟨TrapFrame.default, .ready⟩
    TrapFrame.default 0 rfl
  ⟨h.1, h.2.1, h.2.2.1, h.2.2.2 rfl (fun q hq => absurd hq (List.not_mem_nil q))⟩

/-- Witness for C10: killing with a trap frame whose `tpidr = 99` matches no
process in a queue holding ids 5 and 6 still removes the back process and
returns `some 6 ≠ some 99`. -/
theorem c10_kill_pops_back_regardless_witness :
    (Scheduler.kill
        ⟨[⟨{ TrapFrame.default with tpidr := 5 }, .ready⟩,
          ⟨{ TrapFrame.default with tpidr := 6 }, .ready⟩], some 7⟩
        { TrapFrame.default with tpidr := 99 }).1 = some 6 ∧
    (Scheduler.kill
        ⟨[⟨{ TrapFrame.default with tpidr := 5 }, .ready⟩,
          ⟨{ TrapFrame.default with tpidr := 6 }, .ready⟩], some 7⟩
        { TrapFrame.default with tpidr := 99 }).1 ≠ some 99 :=
  have h := (c10_kill_pops_back_regardless
    ⟨[⟨{ TrapFrame.default with tpidr := 5 }, .ready⟩,
      ⟨{ TrapFrame.default with tpidr := 6 }, .ready⟩], some 7⟩
    { TrapFrame.default with tpidr := 99 }).2.2 (by decide)
  ⟨h.2.1.trans rfl, h.2.2.2 (by decide)⟩
